import Mathlib

/-!
Shallow embedding of the httprequest2 load generator (src/cli_runner.py and
src/server.py) and verification of the frozen claims about it.

Time values, latencies and token counts are modelled as rationals (`ℚ`);
Python floats carry exact values in all the scenarios the claims touch.
The HTTP transport, the name generator and `random.randint` are collaborators:
their results enter the model as explicit inputs.
-/

namespace HttpLoad

/-- Result of one HTTP GET attempt, as observed by the worker code:
either a response (status code plus decoded body text — the best-effort
decode fallback of the source is folded into the collaborator) or a raised
transport exception carrying a message. -/
inductive HttpResult where
  | response (status : Nat) (body : String)
  | transportError (msg : String)
deriving Repr, DecidableEq

/-- An outgoing GET request as both shapes build it: target URL, query
parameters (key/value pairs, in order), and the per-request timeout in
seconds passed to `client.get`. -/
structure HttpGet where
  target : String
  params : List (String × String)
  timeoutSec : ℚ
deriving Repr, DecidableEq

/-- Collaborator model of Python `random.randint a b` (both ends inclusive):
the draw is determined by an arbitrary seed, `a + seed % (b - a + 1)`. -/
def randint (a b : Nat) (seed : Nat) : Nat := a + seed % (b - a + 1)

/-- The request built by `Runner._one` (cli_runner.py lines 72-77): the
params dict maps key q to the generated fake name and key loadMore to
a draw of random.randint over 1..5, and client.get is called with
timeout 10.0 seconds. -/
def cliBuildRequest (target nameQ : String) (seed : Nat) : HttpGet :=
  { target := target
    params := [("q", nameQ), ("loadMore", toString (randint 1 5 seed))]
    timeoutSec := 10 }

/-- The request built by `_worker` (server.py lines 95-98): the params
dict holds the single key q mapped to the generated fake name — there is
no second parameter — and client.get is called with timeout 10.0 seconds. -/
def serverBuildRequest (target nameQ : String) : HttpGet :=
  { target := target
    params := [("q", nameQ)]
    timeoutSec := 10 }

/-- State of `Runner` (cli_runner.py `Runner.__init__`, lines 29-42):
configuration fields, the token bucket (`_tokens`, `_last_fill`) and the
aggregated statistics. `concurrency` is an `Int` because argparse delivers
any integer unchecked. -/
structure Runner where
  target : String
  concurrency : Int
  duration : ℚ
  rps : ℚ
  tokens : ℚ
  last_fill : ℚ
  total : Nat
  success : Nat
  failure : Nat
  total_time : ℚ
  last_response : Option (Option Nat × String)
deriving Repr, DecidableEq

/-- `Runner.__init__` (lines 29-42): rps starts at 0, the bucket empty,
all counters zero. `now` is the `time.time()` read for `_last_fill`. -/
def Runner.init (target : String) (concurrency : Int) (duration : ℚ)
    (now : ℚ) : Runner :=
  { target := target, concurrency := concurrency, duration := duration
    rps := 0, tokens := 0, last_fill := now
    total := 0, success := 0, failure := 0, total_time := 0
    last_response := none }

/-- The initial refill of `_one` (lines 48-54): add `elapsed * rps` tokens,
cap the burst at `rps * 2`, update `_last_fill`. -/
def Runner.refillCapped (s : Runner) (now : ℚ) : Runner :=
  let t := s.tokens + (now - s.last_fill) * s.rps
  { s with tokens := if t > s.rps * 2 then s.rps * 2 else t, last_fill := now }

/-- The refill performed inside the wait loop after each sleep
(lines 66-69): add `elapsed * rps` tokens and update `_last_fill` —
the source applies no cap here. -/
def Runner.refillUncapped (s : Runner) (now : ℚ) : Runner :=
  { s with tokens := s.tokens + (now - s.last_fill) * s.rps, last_fill := now }

/-- The wait loop of `_one` (lines 58-69): while `tokens < 1.0`, sleep and
refill. Each element of `wakes` is the `time.time()` observed after one
sleep; the loop stops early once a full token is available. If the supplied
schedule ends with the loop still waiting, the partially refilled state is
returned as is. -/
def Runner.waitLoop (s : Runner) : List ℚ → Runner
  | [] => s
  | w :: rest => if s.tokens < 1 then (s.refillUncapped w).waitLoop rest else s

/-- The whole rate gate of `_one` (lines 46-71) for `rps > 0`: initial
capped refill at `now`, then the wait loop over `wakes`, then consume one
token. Returns `none` when the wake schedule has not yet yielded a full
token (in the source the loop would keep sleeping). -/
def Runner.acquire (s : Runner) (now : ℚ) (wakes : List ℚ) : Option Runner :=
  let s1 := (s.refillCapped now).waitLoop wakes
  if 1 ≤ s1.tokens then some { s1 with tokens := s1.tokens - 1 } else none

/-- The request/record phase of `_one` (lines 75-93): on a response,
increment `total`, add the measured latency to `total_time`, classify by
200 <= status < 300 into `success`/`failure`, and store the pair of the
status code and the body truncated to 2000 characters as `last_response`;
on a raised transport exception, increment `total` and `failure` and store
the pair of no status and the text "exception: " followed by the message —
note the exception branch touches `total_time` not at all. -/
def Runner.recordOutcome (s : Runner) (res : HttpResult) (elapsed : ℚ) :
    Runner :=
  match res with
  | .response status body =>
      { s with
        total := s.total + 1
        total_time := s.total_time + elapsed
        success := if 200 ≤ status ∧ status < 300 then s.success + 1 else s.success
        failure := if 200 ≤ status ∧ status < 300 then s.failure else s.failure + 1
        last_response := some (some status, body.take 2000) }
  | .transportError msg =>
      { s with
        total := s.total + 1
        failure := s.failure + 1
        last_response := some (none, "exception: " ++ msg) }

/-- The collaborator inputs one call of `Runner._one` consumes: the entry
`time.time()`, the wake times of the rate-gate sleeps, the generated fake
name, the `randint` seed, the transport result and the measured latency. -/
structure OneInput where
  now : ℚ
  wakes : List ℚ
  nameQ : String
  seed : Nat
  res : HttpResult
  elapsed : ℚ
deriving Repr

/-- `Runner._one` (lines 44-93). The guard is
`if self.rps and self.rps > 0:`, and — exactly as in the source — the
entire request block (name generation, params, `client.get`, counter
updates) is indented inside that branch, so when `rps` is not positive the
call returns at once having issued nothing and touched nothing. Returns the
new state and the request issued, if any. -/
def Runner.one (s : Runner) (i : OneInput) : Runner × Option HttpGet :=
  if 0 < s.rps then
    match s.acquire i.now i.wakes with
    | some s1 =>
        (s1.recordOutcome i.res i.elapsed, some (cliBuildRequest s.target i.nameQ i.seed))
    | none => ((s.refillCapped i.now).waitLoop i.wakes, none)
  else (s, none)

/-- `Runner.worker` (lines 95-98): while `time.time() < end_time`, run
`_one` then yield. Each `OneInput.now` is the loop-condition clock read of
one iteration; the loop exits at the first read at or past `end_time`.
Returns the final state and all requests issued. -/
def Runner.worker (s : Runner) (endTime : ℚ) :
    List OneInput → Runner × List HttpGet
  | [] => (s, [])
  | i :: rest =>
      if i.now < endTime then
        let p := s.one i
        let q := p.1.worker endTime rest
        (q.1, p.2.toList ++ q.2)
      else (s, [])

/-- The setup of `Runner.run` (lines 100-104): compute
`end_time = now + duration` and reset the bucket to `_tokens = 0.0`,
`_last_fill = now`. Returns the reset state and the deadline. -/
def Runner.runInit (s : Runner) (now : ℚ) : Runner × ℚ :=
  ({ s with tokens := 0, last_fill := now }, now + s.duration)

/-- `main` (cli_runner.py lines 166-169): build the Runner straight from
the parsed arguments — no validation of any field — and set `rps`. -/
def main_makeRunner (target : String) (concurrency : Int) (duration rps : ℚ)
    (now : ℚ) : Runner :=
  { Runner.init target concurrency duration now with rps := rps }

/-- The shared `_state` dict plus the `_tasks` list of server.py
(lines 17-29). Tasks are identified by opaque numbers. -/
structure ServerState where
  running : Bool
  total_requests : Nat
  success : Nat
  failure : Nat
  total_time : ℚ
  start_time : Option ℚ
  end_time : Option ℚ
  last_response : Option (Option Nat × String)
  tasks : List Nat
deriving Repr, DecidableEq

/-- The fresh server state at module load (lines 17-29). -/
def ServerState.initial : ServerState :=
  { running := false, total_requests := 0, success := 0, failure := 0
    total_time := 0, start_time := none, end_time := none
    last_response := none, tasks := [] }

inductive StartResult where
  | alreadyRunning
  | started
deriving Repr, DecidableEq

/-- `start_test` (server.py lines 38-68): reject with a 400 when already
running, touching nothing; otherwise reset every `_state` key, set
`running`, record `start_time = now`, cancel leftover tasks and keep only
the new controller task. The form fields `concurrency`, `duration` and
`target` are used as received — no validation of any of them occurs. -/
def start_test (st : ServerState) (_concurrency _duration : Int)
    (_target : String) (now : ℚ) (controllerId : Nat) :
    ServerState × StartResult :=
  if st.running then (st, .alreadyRunning)
  else
    ({ running := true, total_requests := 0, success := 0, failure := 0
       total_time := 0, start_time := some now, end_time := none
       last_response := none, tasks := [controllerId] }, .started)

inductive StopResult where
  | notRunning
  | stopped
deriving Repr, DecidableEq

/-- `stop_test` (server.py lines 154-166): reject with a 400 when not
running, touching nothing; otherwise clear `running`, cancel and drop all
tasks, and record `end_time`. -/
def stop_test (st : ServerState) (now : ℚ) : ServerState × StopResult :=
  if !st.running then (st, .notRunning)
  else ({ st with running := false, tasks := [], end_time := some now }, .stopped)

/-- The JSON body `status` returns (server.py lines 71-89). -/
structure StatusSnapshot where
  running : Bool
  total_requests : Nat
  success : Nat
  failure : Nat
  average_response_time : Option ℚ
  elapsed : Option ℚ
  last_response : Option (Option Nat × String)
deriving Repr, DecidableEq

/-- `status` (server.py lines 71-89): report the counters verbatim,
`elapsed` since `start_time` when one is set, and the average
`total_time / total_requests` when at least one request completed. -/
def status (st : ServerState) (now : ℚ) : StatusSnapshot :=
  { running := st.running
    total_requests := st.total_requests
    success := st.success
    failure := st.failure
    average_response_time :=
      if st.total_requests > 0 then some (st.total_time / st.total_requests)
      else none
    elapsed := st.start_time.map (fun t0 => now - t0)
    last_response := st.last_response }

/-- The single-request body of `_worker` (server.py lines 92-116): on a
response, increment `total_requests`, add the latency to `total_time`,
classify by 200 <= status < 300, store the status code and the body
truncated to 2000 characters; on a raised exception, increment
`total_requests` and `failure` and store no status with the fixed body
text "exception" — again the exception branch adds nothing to
`total_time`. -/
def serverRecord (st : ServerState) (res : HttpResult) (elapsed : ℚ) :
    ServerState :=
  match res with
  | .response statusCode body =>
      { st with
        total_requests := st.total_requests + 1
        total_time := st.total_time + elapsed
        success := if 200 ≤ statusCode ∧ statusCode < 300 then st.success + 1 else st.success
        failure := if 200 ≤ statusCode ∧ statusCode < 300 then st.failure else st.failure + 1
        last_response := some (some statusCode, body.take 2000) }
  | .transportError _ =>
      { st with
        total_requests := st.total_requests + 1
        failure := st.failure + 1
        last_response := some (none, "exception") }

/-- Fold of `Runner.recordOutcome` over a sequence of completed outcomes
(the order in which the event loop interleaves the workers' record
sections). -/
def Runner.recordTrace (s : Runner) : List (HttpResult × ℚ) → Runner
  | [] => s
  | (r, e) :: rest => (s.recordOutcome r e).recordTrace rest

/-- Fold of `serverRecord` over a sequence of completed outcomes. -/
def serverRecordTrace (st : ServerState) : List (HttpResult × ℚ) → ServerState
  | [] => st
  | (r, e) :: rest => serverRecordTrace (serverRecord st r e) rest

/-- The observable actions of one worker-loop iteration, used to state
where the rate gate sits relative to the request. -/
inductive Ev where
  | gate
  | request
  | record
deriving Repr, DecidableEq

/-- Action trace of one `Runner._one` call (cli_runner.py lines 44-93):
when `rps > 0` the token-bucket gate runs, then the request, then the
record; otherwise the body is skipped entirely and nothing happens. -/
def cliOneTrace (rps : ℚ) : List Ev :=
  if 0 < rps then [.gate, .request, .record] else []

/-- Action trace of one server worker iteration (`_worker` called from
`loop_worker`, server.py lines 92-130): the request, then the record.
No rate limiter exists anywhere in server.py. -/
def serverWorkerTrace : List Ev := [.request, .record]

/-- `true` iff every `.request` in the trace is preceded (earlier in the
list) by a `.gate`; `seen` records whether a gate has occurred already. -/
def gatedEv (seen : Bool) : List Ev → Bool
  | [] => true
  | .gate :: rest => gatedEv true rest
  | .request :: rest => seen && gatedEv seen rest
  | .record :: rest => gatedEv seen rest

/-- `MonoTimes t ws`: the time observations `ws` are at or after `t` and
nondecreasing — wall-clock reads in program order. -/
def MonoTimes : ℚ → List ℚ → Prop
  | _, [] => True
  | t, w :: rest => t ≤ w ∧ MonoTimes w rest

/-! ## Helper lemmas -/

lemma recordOutcome_conserves (s : Runner) (res : HttpResult) (e : ℚ)
    (h : s.total = s.success + s.failure) :
    (s.recordOutcome res e).total
      = (s.recordOutcome res e).success + (s.recordOutcome res e).failure := by
  cases res with
  | response status body =>
      by_cases hc : 200 ≤ status ∧ status < 300 <;>
        simp [Runner.recordOutcome, hc] <;> omega
  | transportError msg =>
      simp [Runner.recordOutcome]; omega

lemma recordTrace_conserves (tr : List (HttpResult × ℚ)) :
    ∀ s : Runner, s.total = s.success + s.failure →
      (s.recordTrace tr).total
        = (s.recordTrace tr).success + (s.recordTrace tr).failure := by
  induction tr with
  | nil => intro s h; simpa [Runner.recordTrace] using h
  | cons p rest ih =>
      intro s h
      obtain ⟨r, e⟩ := p
      simpa [Runner.recordTrace] using ih _ (recordOutcome_conserves s r e h)

lemma serverRecord_conserves (st : ServerState) (res : HttpResult) (e : ℚ)
    (h : st.total_requests = st.success + st.failure) :
    (serverRecord st res e).total_requests
      = (serverRecord st res e).success + (serverRecord st res e).failure := by
  cases res with
  | response status body =>
      by_cases hc : 200 ≤ status ∧ status < 300 <;>
        simp [serverRecord, hc] <;> omega
  | transportError msg =>
      simp [serverRecord]; omega

lemma serverRecordTrace_conserves (tr : List (HttpResult × ℚ)) :
    ∀ st : ServerState, st.total_requests = st.success + st.failure →
      (serverRecordTrace st tr).total_requests
        = (serverRecordTrace st tr).success + (serverRecordTrace st tr).failure := by
  induction tr with
  | nil => intro st h; simpa [serverRecordTrace] using h
  | cons p rest ih =>
      intro st h
      obtain ⟨r, e⟩ := p
      simpa [serverRecordTrace] using ih _ (serverRecord_conserves st r e h)

/-! ## Claims -/

/-- C2: at every observable point — after any sequence of completed record
steps in either shape, and in the status snapshot taken of such a state —
the total counter equals exactly the sum of the success and failure
counters. -/
theorem c2_counter_conservation (s : Runner) (st : ServerState)
    (tr tr2 : List (HttpResult × ℚ)) (now : ℚ)
    (hs : s.total = s.success + s.failure)
    (hst : st.total_requests = st.success + st.failure) :
    (s.recordTrace tr).total
      = (s.recordTrace tr).success + (s.recordTrace tr).failure
    ∧ (serverRecordTrace st tr2).total_requests
      = (serverRecordTrace st tr2).success + (serverRecordTrace st tr2).failure
    ∧ (status (serverRecordTrace st tr2) now).total_requests
      = (status (serverRecordTrace st tr2) now).success
        + (status (serverRecordTrace st tr2) now).failure := by
  refine ⟨recordTrace_conserves tr s hs, serverRecordTrace_conserves tr2 st hst, ?_⟩
  simpa [status] using serverRecordTrace_conserves tr2 st hst

/-- Witness for C2 at a concrete state and trace. -/
theorem c2_counter_conservation_witness :
    (Runner.init "http://x" 1 10 0).total
      = (Runner.init "http://x" 1 10 0).success + (Runner.init "http://x" 1 10 0).failure
    ∧ ServerState.initial.total_requests
      = ServerState.initial.success + ServerState.initial.failure
    ∧ ((Runner.init "http://x" 1 10 0).recordTrace
          [(.response 200 "ok", 1), (.transportError "boom", 2), (.response 404 "no", 3)]).total
      = ((Runner.init "http://x" 1 10 0).recordTrace
          [(.response 200 "ok", 1), (.transportError "boom", 2), (.response 404 "no", 3)]).success
        + ((Runner.init "http://x" 1 10 0).recordTrace
          [(.response 200 "ok", 1), (.transportError "boom", 2), (.response 404 "no", 3)]).failure :=
  ⟨rfl, rfl,
    (c2_counter_conservation (Runner.init "http://x" 1 10 0) ServerState.initial
      [(.response 200 "ok", 1), (.transportError "boom", 2), (.response 404 "no", 3)]
      [] 0 rfl rfl).1⟩

/-- C4 counterexample: recording a transport failure with latency 1 into
the fresh CLI state leaves the cumulative latency sum at 0, not the
claimed previous-sum-plus-latency value 1. -/
theorem c4_counterexample :
    ((Runner.init "http://x" 1 10 0).recordOutcome (.transportError "boom") 1).total_time = 0
    ∧ ¬ ((Runner.init "http://x" 1 10 0).recordOutcome (.transportError "boom") 1).total_time
        = (Runner.init "http://x" 1 10 0).total_time + 1 := by
  constructor
  · rfl
  · norm_num [Runner.init, Runner.recordOutcome]

/-- C4 (amended): in both shapes, recording a completed response increments
total, increments exactly one of success/failure, adds the latency to the
cumulative sum, and replaces the last-outcome slot; recording a transport
failure increments total and failure and replaces the slot but leaves the
cumulative latency sum unchanged. -/
theorem c4_record_contract (s : Runner) (st : ServerState)
    (res : HttpResult) (e e2 : ℚ) :
    (s.recordOutcome res e).total = s.total + 1
    ∧ (((s.recordOutcome res e).success = s.success + 1
          ∧ (s.recordOutcome res e).failure = s.failure)
        ∨ ((s.recordOutcome res e).success = s.success
          ∧ (s.recordOutcome res e).failure = s.failure + 1))
    ∧ (s.recordOutcome res e).total_time
        = (match res with
           | .response _ _ => s.total_time + e
           | .transportError _ => s.total_time)
    ∧ (s.recordOutcome res e).last_response
        = some (match res with
                | .response c b => (some c, b.take 2000)
                | .transportError m => (none, "exception: " ++ m))
    ∧ (serverRecord st res e2).total_requests = st.total_requests + 1
    ∧ (((serverRecord st res e2).success = st.success + 1
          ∧ (serverRecord st res e2).failure = st.failure)
        ∨ ((serverRecord st res e2).success = st.success
          ∧ (serverRecord st res e2).failure = st.failure + 1))
    ∧ (serverRecord st res e2).total_time
        = (match res with
           | .response _ _ => st.total_time + e2
           | .transportError _ => st.total_time)
    ∧ (serverRecord st res e2).last_response
        = some (match res with
                | .response c b => (some c, b.take 2000)
                | .transportError _ => (none, "exception")) := by
  cases res with
  | response statusCode body =>
      by_cases hc : 200 ≤ statusCode ∧ statusCode < 300 <;>
        simp [Runner.recordOutcome, serverRecord, hc]
  | transportError msg =>
      simp [Runner.recordOutcome, serverRecord]

/-- C7: a failed transport attempt is recorded as data in both shapes: the
stored outcome has an absent status code, the failure counter (and only it)
is incremented, the stored synthetic body is non-empty, and the worker
continues with the remaining outcomes of its trace — nothing propagates. -/
theorem c7_transport_failure_is_data (s : Runner) (st : ServerState)
    (msg : String) (e e2 : ℚ) (rest : List (HttpResult × ℚ)) :
    (s.recordOutcome (.transportError msg) e).last_response
      = some (none, "exception: " ++ msg)
    ∧ ("exception: " ++ msg) ≠ ""
    ∧ (s.recordOutcome (.transportError msg) e).failure = s.failure + 1
    ∧ (s.recordOutcome (.transportError msg) e).success = s.success
    ∧ (s.recordOutcome (.transportError msg) e).total = s.total + 1
    ∧ s.recordTrace ((.transportError msg, e) :: rest)
      = (s.recordOutcome (.transportError msg) e).recordTrace rest
    ∧ (serverRecord st (.transportError msg) e2).last_response
      = some (none, "exception")
    ∧ ("exception" : String) ≠ ""
    ∧ (serverRecord st (.transportError msg) e2).failure = st.failure + 1
    ∧ (serverRecord st (.transportError msg) e2).success = st.success
    ∧ (serverRecord st (.transportError msg) e2).total_requests
      = st.total_requests + 1 := by
  refine ⟨rfl, ?_, rfl, rfl, rfl, rfl, rfl, ?_, rfl, rfl, rfl⟩
  · simp [String.ext_iff]
  · simp [String.ext_iff]

/-- C8: starting while running is rejected and stopping while not running
is rejected, and in both rejection cases the whole server state — counters,
times, last outcome, task list and running flag — is returned unchanged. -/
theorem c8_lifecycle_rejections (st st2 : ServerState) (c d : Int)
    (t : String) (now now2 : ℚ) (cid : Nat)
    (h : st.running = true) (h2 : st2.running = false) :
    start_test st c d t now cid = (st, .alreadyRunning)
    ∧ stop_test st2 now2 = (st2, .notRunning) := by
  constructor
  · simp [start_test, h]
  · simp [stop_test, h2]

/-- Witness for C8 at concrete states. -/
theorem c8_lifecycle_rejections_witness :
    ({ ServerState.initial with running := true } : ServerState).running = true
    ∧ ServerState.initial.running = false
    ∧ start_test { ServerState.initial with running := true } 3 5 "http://x" 1 7
        = ({ ServerState.initial with running := true }, .alreadyRunning)
    ∧ stop_test ServerState.initial 2 = (ServerState.initial, .notRunning) :=
  ⟨rfl, rfl,
    (c8_lifecycle_rejections { ServerState.initial with running := true }
      ServerState.initial 3 5 "http://x" 1 2 7 rfl rfl).1,
    (c8_lifecycle_rejections { ServerState.initial with running := true }
      ServerState.initial 3 5 "http://x" 1 2 7 rfl rfl).2⟩

/-- C9 counterexample: the request the server worker builds carries no
loadMore parameter at all — its parameter list holds only the key q. -/
theorem c9_counterexample :
    (serverBuildRequest "http://x/api/search" "李娜").params.map Prod.fst = ["q"]
    ∧ "loadMore" ∉ (serverBuildRequest "http://x/api/search" "李娜").params.map Prod.fst := by
  constructor
  · rfl
  · decide

/-- C9 (amended): every CLI-shape request is a GET to the target with a
randomized name under key q, a randomized integer between 1 and 5
inclusive under key loadMore, and a 10-second timeout; every server-shape
request carries only the randomized name under key q, with the same
10-second timeout and no secondary integer parameter. -/
theorem c9_request_shape (target nameQ : String) (seed : Nat) :
    (cliBuildRequest target nameQ seed).target = target
    ∧ (cliBuildRequest target nameQ seed).params
        = [("q", nameQ), ("loadMore", toString (randint 1 5 seed))]
    ∧ 1 ≤ randint 1 5 seed ∧ randint 1 5 seed ≤ 5
    ∧ (cliBuildRequest target nameQ seed).timeoutSec = 10
    ∧ (serverBuildRequest target nameQ).target = target
    ∧ (serverBuildRequest target nameQ).params = [("q", nameQ)]
    ∧ (serverBuildRequest target nameQ).timeoutSec = 10 := by
  refine ⟨rfl, rfl, ?_, ?_, rfl, rfl, rfl, rfl⟩
  · simp [randint]
  · have : seed % 5 < 5 := Nat.mod_lt _ (by omega)
    simp [randint]; omega

@[simp] lemma refillCapped_rps (s : Runner) (now : ℚ) :
    (s.refillCapped now).rps = s.rps := rfl

@[simp] lemma refillCapped_last_fill (s : Runner) (now : ℚ) :
    (s.refillCapped now).last_fill = now := rfl

@[simp] lemma refillUncapped_rps (s : Runner) (now : ℚ) :
    (s.refillUncapped now).rps = s.rps := rfl

@[simp] lemma refillUncapped_last_fill (s : Runner) (now : ℚ) :
    (s.refillUncapped now).last_fill = now := rfl

lemma refillUncapped_tokens (s : Runner) (now : ℚ) :
    (s.refillUncapped now).tokens = s.tokens + (now - s.last_fill) * s.rps := rfl

lemma refillCapped_tokens_le (s : Runner) (now : ℚ) :
    (s.refillCapped now).tokens ≤ s.rps * 2 := by
  simp only [Runner.refillCapped]
  split
  · exact le_refl _
  · exact le_of_not_lt (by assumption)

lemma refillCapped_tokens_nonneg (s : Runner) (now : ℚ)
    (hr : 0 ≤ s.rps) (ht : 0 ≤ s.tokens) (hf : s.last_fill ≤ now) :
    0 ≤ (s.refillCapped now).tokens := by
  have h1 : 0 ≤ s.tokens + (now - s.last_fill) * s.rps := by
    have h2 : 0 ≤ (now - s.last_fill) * s.rps := mul_nonneg (by linarith) hr
    linarith
  simp only [Runner.refillCapped]
  split
  · linarith
  · exact h1

lemma waitLoop_tokens_nonneg :
    ∀ (wakes : List ℚ) (s : Runner), 0 ≤ s.rps → 0 ≤ s.tokens →
      MonoTimes s.last_fill wakes → 0 ≤ (s.waitLoop wakes).tokens
  | [], _, _, ht, _ => ht
  | w :: rest, s, hr, ht, hm => by
      rw [Runner.waitLoop]
      split
      · apply waitLoop_tokens_nonneg rest
        · simpa using hr
        · rw [refillUncapped_tokens]
          have h2 : 0 ≤ (w - s.last_fill) * s.rps :=
            mul_nonneg (by linarith [hm.1]) hr
          linarith
        · simpa using hm.2
      · exact ht

lemma acquire_tokens_nonneg (s : Runner) (now : ℚ) (wakes : List ℚ) :
    ∀ s', s.acquire now wakes = some s' → 0 ≤ s'.tokens := by
  intro s' h
  simp only [Runner.acquire] at h
  by_cases h1 : 1 ≤ ((s.refillCapped now).waitLoop wakes).tokens
  · rw [if_pos h1] at h
    cases h
    show 0 ≤ ((s.refillCapped now).waitLoop wakes).tokens - 1
    linarith
  · rw [if_neg h1] at h
    exact absurd h (by simp)

/-- C1 is a code bug: in cli_runner.py the whole request block of
`Runner._one` sits indented inside the branch guarded by rps > 0, so a run
configured with rps = 0 — the argparse default, whose own help text says 0
means no limit — issues no request at all. Here a worker iteration entered
well before the deadline (clock 0, deadline 120) with a successful
transport available returns the state unchanged: no request issued, total
still 0, where the claim promises at least one issued and counted
request. -/
theorem c1_rps_zero_issues_nothing :
    ((main_makeRunner "http://x/api/search" 10 120 0 0).runInit 0).2 = 120
    ∧ (0 : ℚ) < 120
    ∧ Runner.worker ((main_makeRunner "http://x/api/search" 10 120 0 0).runInit 0).1 120
        [{ now := 0, wakes := [], nameQ := "张伟", seed := 0,
           res := .response 200 "ok", elapsed := 1/100 }]
      = (((main_makeRunner "http://x/api/search" 10 120 0 0).runInit 0).1, [])
    ∧ (Runner.worker ((main_makeRunner "http://x/api/search" 10 120 0 0).runInit 0).1 120
        [{ now := 0, wakes := [], nameQ := "张伟", seed := 0,
           res := .response 200 "ok", elapsed := 1/100 }]).1.total = 0 := by
  refine ⟨by norm_num [main_makeRunner, Runner.init, Runner.runInit], by norm_num, ?_, ?_⟩ <;>
    norm_num [main_makeRunner, Runner.init, Runner.runInit, Runner.worker, Runner.one]

/-- C3 counterexample: an idle server accepts a start request whose
configuration is invalid on every axis — concurrency 0, duration -5 and a
malformed target — and the run still begins: the call acknowledges started
and the state transitions to running, instead of failing with any
configuration error. -/
theorem c3_counterexample :
    (start_test ServerState.initial 0 (-5) "not a url" 100 7).2 = .started
    ∧ (start_test ServerState.initial 0 (-5) "not a url" 100 7).1.running = true := by
  constructor <;> rfl

/-- C3 (amended): neither shape validates the run configuration. When not
already running, start_test accepts any concurrency, duration and target
string, acknowledges started, and transitions to running; the CLI likewise
builds its Runner from the raw arguments and computes the deadline
now + duration, beginning the run without any check. -/
theorem c3_no_config_validation (st : ServerState) (c d : Int) (t : String)
    (now : ℚ) (cid : Nat) (h : st.running = false)
    (tgt : String) (c2 : Int) (d2 rps now2 : ℚ) :
    (start_test st c d t now cid).2 = .started
    ∧ (start_test st c d t now cid).1.running = true
    ∧ ((main_makeRunner tgt c2 d2 rps now2).runInit now2).2 = now2 + d2 := by
  refine ⟨?_, ?_, rfl⟩ <;> simp [start_test, h]

/-- Witness for C3 (amended) at a concrete invalid configuration. -/
theorem c3_no_config_validation_witness :
    ServerState.initial.running = false
    ∧ (start_test ServerState.initial (-1) 0 "" 1 2).2 = .started :=
  ⟨rfl, (c3_no_config_validation ServerState.initial (-1) 0 "" 1 2 rfl "x" 0 (-3) 0 5).1⟩

/-- C5 counterexample: the server worker iteration issues its request with
no rate gate anywhere before it — the gating check over its action trace
fails. -/
theorem c5_counterexample : gatedEv false serverWorkerTrace = false := rfl

/-- C5 (amended): in the CLI shape a request is issued only after the
token-bucket acquire has succeeded — whenever an iteration issues a
request, the acquire returned a state, and every CLI iteration trace
passes the gating check; but the server shape has no RateLimiter at all,
so its worker trace issues a request that no gate precedes. -/
theorem c5_gate_cli_only (s : Runner) (i : OneInput) (rps : ℚ)
    (hreq : (s.one i).2.isSome = true) :
    (∃ s1, s.acquire i.now i.wakes = some s1)
    ∧ gatedEv false (cliOneTrace rps) = true
    ∧ gatedEv false serverWorkerTrace = false := by
  refine ⟨?_, ?_, rfl⟩
  · by_cases h : 0 < s.rps
    · cases hacq : s.acquire i.now i.wakes with
      | some s1 => exact ⟨s1, rfl⟩
      | none => exact absurd hreq (by simp [Runner.one, h, hacq])
    · exact absurd hreq (by simp [Runner.one, h])
  · by_cases h : 0 < rps <;> simp [cliOneTrace, h, gatedEv]

/-- Witness for C5 (amended): a CLI iteration that does issue a request. -/
theorem c5_gate_cli_only_witness :
    (({ main_makeRunner "http://x" 1 60 1 0 with tokens := 2 } : Runner).one
        { now := 0, wakes := [], nameQ := "n", seed := 0,
          res := .response 200 "ok", elapsed := 1 }).2.isSome = true
    ∧ ∃ s1, ({ main_makeRunner "http://x" 1 60 1 0 with tokens := 2 } : Runner).acquire 0 []
        = some s1 :=
  ⟨by norm_num [Runner.one, Runner.acquire, Runner.refillCapped, Runner.waitLoop,
      main_makeRunner, Runner.init],
    (c5_gate_cli_only { main_makeRunner "http://x" 1 60 1 0 with tokens := 2 }
      { now := 0, wakes := [], nameQ := "n", seed := 0,
        res := .response 200 "ok", elapsed := 1 } 1
      (by norm_num [Runner.one, Runner.acquire, Runner.refillCapped, Runner.waitLoop,
        main_makeRunner, Runner.init])).1⟩

/-- C6 counterexample: with rps = 1/10 the capacity is 1/5, yet inside
acquire (whose body is this capped refill, this wait loop, then the token
consumption) the wait-loop refill performed after a 10-second sleep raises
the token count to 1 — five times the capacity — because the in-loop
refill applies no cap, contrary to the claim that every refill caps the
count at capacity. -/
theorem c6_counterexample :
    (((main_makeRunner "http://x" 1 60 (1/10) 0).refillCapped 0).waitLoop [10]).tokens = 1
    ∧ (main_makeRunner "http://x" 1 60 (1/10) 0).rps * 2 = 1/5
    ∧ ¬ ((((main_makeRunner "http://x" 1 60 (1/10) 0).refillCapped 0).waitLoop [10]).tokens
          ≤ (main_makeRunner "http://x" 1 60 (1/10) 0).rps * 2) := by
  refine ⟨?_, ?_, ?_⟩ <;>
    norm_num [main_makeRunner, Runner.init, Runner.refillCapped, Runner.waitLoop,
      Runner.refillUncapped]

/-- C6 (amended): with rps > 0, the initial refill of acquire caps the
token count at capacity = rps * 2, and the count never becomes negative —
after the initial refill, throughout the wait loop, and after the final
consumption; but the refills inside the wait loop apply no cap, so the
count can exceed capacity there (see the counterexample). -/
theorem c6_bucket_bounds (s : Runner) (now : ℚ) (wakes : List ℚ)
    (hr : 0 < s.rps) (ht : 0 ≤ s.tokens) (hf : s.last_fill ≤ now)
    (hm : MonoTimes now wakes) :
    (s.refillCapped now).tokens ≤ s.rps * 2
    ∧ 0 ≤ (s.refillCapped now).tokens
    ∧ 0 ≤ ((s.refillCapped now).waitLoop wakes).tokens
    ∧ ∀ s', s.acquire now wakes = some s' → 0 ≤ s'.tokens := by
  have hr' : 0 ≤ s.rps := le_of_lt hr
  refine ⟨refillCapped_tokens_le s now,
    refillCapped_tokens_nonneg s now hr' ht hf, ?_,
    acquire_tokens_nonneg s now wakes⟩
  apply waitLoop_tokens_nonneg
  · simpa using hr'
  · exact refillCapped_tokens_nonneg s now hr' ht hf
  · simpa using hm

/-- Witness for C6 (amended) at a concrete bucket and wake schedule. -/
theorem c6_bucket_bounds_witness :
    (0 : ℚ) < (main_makeRunner "http://x" 1 60 1 0).rps
    ∧ (0 : ℚ) ≤ (main_makeRunner "http://x" 1 60 1 0).tokens
    ∧ (main_makeRunner "http://x" 1 60 1 0).last_fill ≤ 0
    ∧ MonoTimes 0 [1]
    ∧ 0 ≤ (((main_makeRunner "http://x" 1 60 1 0).refillCapped 0).waitLoop [1]).tokens :=
  ⟨by norm_num [main_makeRunner, Runner.init], by norm_num [main_makeRunner, Runner.init],
    by norm_num [main_makeRunner, Runner.init], ⟨by norm_num, trivial⟩,
    (c6_bucket_bounds (main_makeRunner "http://x" 1 60 1 0) 0 [1]
      (by norm_num [main_makeRunner, Runner.init])
      (by norm_num [main_makeRunner, Runner.init])
      (by norm_num [main_makeRunner, Runner.init]) ⟨by norm_num, trivial⟩).2.2.1⟩

/-- C10: the setup of run resets the token bucket to empty — zero tokens,
refill clock at the current instant — so with a positive rate the very
first acquisition attempt at that instant finds no full token and must
enter the wait loop: no startup burst of capacity tokens exists. -/
theorem c10_bucket_starts_empty (s : Runner) (now : ℚ) :
    (s.runInit now).1.tokens = 0
    ∧ (s.runInit now).1.last_fill = now
    ∧ (0 < s.rps → (s.runInit now).1.acquire now [] = none) := by
  refine ⟨rfl, rfl, fun hr => ?_⟩
  have hcap : ¬ (s.rps * 2 < (0 : ℚ) + (now - now) * s.rps) := by
    rw [sub_self, zero_mul, add_zero]
    linarith
  have ht : ((({ s with tokens := 0, last_fill := now } : Runner)).refillCapped now).tokens
      = (0 : ℚ) + (now - now) * s.rps := by
    simp only [Runner.refillCapped, gt_iff_lt]
    rw [if_neg hcap]
  simp only [Runner.runInit, Runner.acquire, Runner.waitLoop]
  rw [if_neg]
  rw [ht, sub_self, zero_mul, add_zero]
  norm_num

/-- Witness for C10 at a concrete positive-rate runner. -/
theorem c10_bucket_starts_empty_witness :
    (0 : ℚ) < (main_makeRunner "http://x" 1 10 1 0).rps
    ∧ ((main_makeRunner "http://x" 1 10 1 0).runInit 5).1.acquire 5 [] = none :=
  ⟨by norm_num [main_makeRunner, Runner.init],
    (c10_bucket_starts_empty (main_makeRunner "http://x" 1 10 1 0) 5).2.2
      (by norm_num [main_makeRunner, Runner.init])⟩

end HttpLoad
